import Mathlib

set_option maxHeartbeats 1000000

/-!
Shallow embedding of phira's src/phira/src/scene/main.rs (MainScene): the
navigation stack, transition state machine, audio coupling, the single-slot
async import task, the inbound file router and the resource-pack import
pipeline. The stack keeps its top at the head of the list (the source Vec
keeps the top at the end). Rust panics (index underflow, unwrap on empty)
are modelled as Option.none results; fallible external operations are
injected as boolean/Option fields of an environment record.
-/

namespace Phira

/-- One navigable page, abstracted to the attributes the orchestrator itself
reads: whether it permits background music, and its label (trait Page). -/
structure Page where
  canPlayBgm : Bool
  label : String
deriving DecidableEq

/-- Navigation action the top page reports each frame (page::NextPage). -/
inductive NextPage where
  | overlay (sub : Page)
  | pop
  | none
deriving DecidableEq

/-- Observable effects the orchestrator emits, in order, during one call:
lifecycle hooks, audio commands, store flushes and user notifications. -/
inductive Event where
  | enter (label : String)
  | exitPage (label : String)
  | updatePage (label : String)
  | touchPage (label : String)
  | buttonHit
  | fadeIn
  | fadeOut
  | lowPassOn
  | lowPassOff
  | setAmplifier
  | saveData
  | reloadCharts
  | showError (msg : String)
  | showMessage (msg : String)
  | returnFile (tag : String)
deriving DecidableEq

/-- Modelled from the spec: the transition state machine (Fader) is
implemented in the prpr crate, which is not under src. Spec 4.2: states are
Idle and Transitioning(direction) with a fixed start time; at most one
transition is in flight; completion is observed exactly once, reporting the
direction (true = Pop, started by back; false = Push, started by sub) and
resetting the machine to Idle. -/
structure Fader where
  trans : Option (Bool × Nat)
deriving DecidableEq

/-- Transition duration; a configurable numeric parameter, not structural. -/
def TRANSIT_TIME : Nat := 300

def Fader.transiting (f : Fader) : Bool := f.trans.isSome

/-- Start a Pop transition (Fader::back). -/
def Fader.back (_f : Fader) (t : Nat) : Fader := ⟨some (true, t)⟩

/-- Start a Push transition (Fader::sub). -/
def Fader.sub (_f : Fader) (t : Nat) : Fader := ⟨some (false, t)⟩

/-- Poll completion: past the duration, report the direction and reset. -/
def Fader.done (f : Fader) (t : Nat) : Option Bool × Fader :=
  match f.trans with
  | some (isBack, st) =>
      if st + TRANSIT_TIME ≤ t then (some isBack, ⟨Option.none⟩) else (Option.none, f)
  | Option.none => (Option.none, f)

/-- Chart artifact appended to the persistent chart list (data::LocalChart). -/
structure LocalChart where
  name : String
deriving DecidableEq

/-- Parsed manifest of a resource pack (core::ResPackInfo), info.yml. -/
structure ResPackInfo where
  name : String
deriving DecidableEq

/-- Imported resource-pack artifact handed off to the next interested page
(page::ResPackItem::new(Some(path), name)). -/
structure ResPackItem where
  path : Option String
  name : String
deriving DecidableEq

/-- Persistent store contents this scene mutates (get_data_mut / save_data). -/
structure Data where
  charts : List LocalChart
  respacks : List String
deriving DecidableEq

/-- Entries of the respacks root directory and the files below it; used to
model dir.exists, create_dir_all and unzip_into. -/
structure FsState where
  dirs : List String
  files : List (String × String)
deriving DecidableEq

/-- Fault-injection environment for one run of the resource-pack pipeline:
each boolean is the success of the corresponding fallible step in
MainScene::update's "_import_respack" arm; ids is the uuid7 stream;
unzipWrites are the files the archive extraction writes before it finishes
or fails; parsedInfo is Option.none when serde_yaml fails. -/
structure RespEnv where
  rootOk : Bool
  root : String
  dirNewOk : Bool
  ids : List String
  createOk : Bool
  openDirOk : Bool
  fileOpenOk : Bool
  unzipOk : Bool
  unzipWrites : List String
  ymlPresent : Bool
  parsedInfo : Option ResPackInfo
  saveOk : Bool
deriving DecidableEq

/-- Failure points of the resource-pack pipeline, one per fallible step, in
source order (main.rs lines 255-270). -/
inductive RespErr where
  | rootFail
  | dirNewFail
  | idExhausted
  | createFail
  | openDirFail
  | fileOpenFail
  | unzipFail
  | missingYml
  | parseFail
  | saveFail
deriving DecidableEq

/-- Result of one run of the resource-pack pipeline together with the final
persistent-store and filesystem states. -/
structure RespOut where
  result : Except RespErr ResPackItem
  data : Data
  fs : FsState

/-- Identifier allocation loop (main.rs lines 258-261): draw from the uuid
stream, recheck the root directory after each collision, retry until a
collision-free identifier is found. The stream is a finite fuel list; an
exhausted stream models the (probability-negligible) non-termination. -/
def allocId (dirs : List String) : List String → Option String
  | [] => Option.none
  | i :: rest => if i ∈ dirs then allocId dirs rest else some i

/-- Resource-pack import pipeline (main.rs lines 254-270): root dir, Dir
handle, id allocation, create_dir_all, open_dir, File::open, unzip_into,
info.yml parse, then — only after all of those — push the id onto the
persistent respack list and save. No cleanup is performed on failure. -/
def respackImport (env : RespEnv) (d : Data) (fs : FsState) : RespOut :=
  if env.rootOk = false then ⟨Except.error RespErr.rootFail, d, fs⟩
  else if env.dirNewOk = false then ⟨Except.error RespErr.dirNewFail, d, fs⟩
  else
    match allocId fs.dirs env.ids with
    | Option.none => ⟨Except.error RespErr.idExhausted, d, fs⟩
    | some id =>
      if env.createOk = false then ⟨Except.error RespErr.createFail, d, fs⟩
      else if env.openDirOk = false then
        ⟨Except.error RespErr.openDirFail, d, ⟨id :: fs.dirs, fs.files⟩⟩
      else if env.fileOpenOk = false then
        ⟨Except.error RespErr.fileOpenFail, d, ⟨id :: fs.dirs, fs.files⟩⟩
      else if env.unzipOk = false then
        ⟨Except.error RespErr.unzipFail, d,
          ⟨id :: fs.dirs, env.unzipWrites.map (fun f => (id, f)) ++ fs.files⟩⟩
      else if env.ymlPresent = false then
        ⟨Except.error RespErr.missingYml, d,
          ⟨id :: fs.dirs, env.unzipWrites.map (fun f => (id, f)) ++ fs.files⟩⟩
      else
        match env.parsedInfo with
        | Option.none =>
          ⟨Except.error RespErr.parseFail, d,
            ⟨id :: fs.dirs, env.unzipWrites.map (fun f => (id, f)) ++ fs.files⟩⟩
        | some cfg =>
          if env.saveOk = false then
            ⟨Except.error RespErr.saveFail, ⟨d.charts, d.respacks ++ [id]⟩,
              ⟨id :: fs.dirs, env.unzipWrites.map (fun f => (id, f)) ++ fs.files⟩⟩
          else
            ⟨Except.ok ⟨some (env.root ++ "/" ++ id), cfg.name⟩,
              ⟨d.charts, d.respacks ++ [id]⟩,
              ⟨id :: fs.dirs, env.unzipWrites.map (fun f => (id, f)) ++ fs.files⟩⟩

/-- State of MainScene read and written by the orchestration logic. pages
keeps the top of the stack at the head (the source Vec keeps it at the
end); bgm records whether background music exists (feature "closed");
the field importTask is the single async task slot, tasks having a creation
counter; respackSlot is the thread-local RESPACK_ITEM hand-off. -/
structure MainScene where
  pages : List Page
  fader : Fader
  t : Nat
  bgm : Bool
  importTask : Option Nat
  nextTaskId : Nat
  data : Data
  respackSlot : Option ResPackItem
deriving DecidableEq

/-- MainScene::pop (main.rs lines 125-132). The bgm-fade condition
short-circuits: when the top page can play bgm the second operand (an index
two-from-the-end, which underflows at depth 1) is never evaluated. A panic
is modelled as Option.none; no page is removed here — the Pop transition is
merely started. -/
def MainScene.pop (s : MainScene) : Option (MainScene × List Event) :=
  match s.pages with
  | [] => Option.none
  | top :: rest =>
    if top.canPlayBgm then
      some ({ s with fader := s.fader.back s.t }, [])
    else
      match rest with
      | below :: _ =>
        some ({ s with fader := s.fader.back s.t },
          if below.canPlayBgm ∧ s.bgm then [Event.fadeIn] else [])
      | [] => Option.none

/-- Inputs of one touch call that come from outside the orchestrator: what
the back RectButton reports, and what the top page's handler returns. -/
structure TouchInput where
  hitsBack : Bool
  pageHandles : Bool
deriving DecidableEq

/-- MainScene::touch (main.rs lines 168-191): during a transition return
false without touching anything; while an import is outstanding consume the
input; otherwise try the back affordance (depth > 1 only; disengage the
low-pass filter when leaving depth 2) and then the top page's handler. -/
def MainScene.touch (s : MainScene) (inp : TouchInput) (now : Nat) :
    Option (MainScene × Bool × List Event) :=
  if s.fader.transiting then some (s, false, [])
  else if s.importTask.isSome then some (s, true, [])
  else
    let s1 := { s with t := now }
    if inp.hitsBack ∧ 1 < s1.pages.length then
      match s1.pop with
      | some (s2, evs) =>
        some (s2, true,
          Event.buttonHit ::
            ((if s1.pages.length = 2 ∧ s1.bgm then [Event.lowPassOff] else []) ++ evs))
      | Option.none => Option.none
    else
      match s1.pages with
      | [] => Option.none
      | top :: _ => some (s1, inp.pageHandles, [Event.touchPage top.label])

/-- Navigation section of MainScene::update (main.rs lines 202-227): when
idle, apply the top page's requested action (push: low-pass when depth
becomes 2, enter the new page immediately, fade out if it cannot play bgm;
pop: MainScene::pop); when transiting, poll the fader and on a completed
Pop run exit on the removed page and enter on the new top. -/
def navStep (s : MainScene) (np : NextPage) : Option (MainScene × List Event) :=
  if s.fader.transiting then
    match s.fader.done s.t with
    | (some true, f2) =>
      match s.pages with
      | top :: newTop :: rest =>
        some ({ s with pages := newTop :: rest, fader := f2 },
          [Event.exitPage top.label, Event.enter newTop.label])
      | _ => Option.none
    | (_, f2) => some ({ s with fader := f2 }, [])
  else
    match np with
    | NextPage.overlay sub =>
      some ({ s with pages := sub :: s.pages, fader := s.fader.sub s.t },
        (if s.pages.length = 1 ∧ s.bgm then [Event.lowPassOn] else [])
          ++ [Event.enter sub.label]
          ++ (if sub.canPlayBgm = false ∧ s.bgm then [Event.fadeOut] else []))
    | NextPage.pop => s.pop
    | NextPage.none => some (s, [])

/-- Import-task polling section of MainScene::update (main.rs lines
233-248). res is what task.take() yields this frame (Option.none while
pending). On an error show it with the import-failed context; on success
show the message, append the chart and save — the save uses the question
mark operator, so on save failure update propagates the error (third
component true) before the slot is cleared. The slot is cleared on every
other completed poll. -/
def pollStep (s : MainScene) (res : Option (Except String LocalChart)) (saveOk : Bool) :
    MainScene × List Event × Bool :=
  match s.importTask with
  | Option.none => (s, [], false)
  | some _ =>
    match res with
    | Option.none => (s, [], false)
    | some (Except.error e) =>
      ({ s with importTask := Option.none },
        [Event.showError ("import-failed: " ++ e)], false)
    | some (Except.ok c) =>
      if saveOk then
        ({ s with
            importTask := Option.none
            data := { s.data with charts := s.data.charts ++ [c] } },
          [Event.showMessage "import-success", Event.saveData, Event.reloadCharts], false)
      else
        ({ s with data := { s.data with charts := s.data.charts ++ [c] } },
          [Event.showMessage "import-success"], true)

/-- Inbound file router section of MainScene::update (main.rs lines
249-283): "_import" overwrites the task slot with a freshly created task,
unconditionally; "_import_respack" runs the pipeline inline and either
shows a contextualized error or stores the artifact in the hand-off slot;
any other tag is returned to the originating page. -/
def fileStep (s : MainScene) (file : Option (String × String)) (env : RespEnv)
    (fs : FsState) : MainScene × List Event × FsState :=
  match file with
  | Option.none => (s, [], fs)
  | some (tag, _f) =>
    if tag = "_import" then
      ({ s with importTask := some s.nextTaskId, nextTaskId := s.nextTaskId + 1 }, [], fs)
    else if tag = "_import_respack" then
      match (respackImport env s.data fs).result with
      | Except.error _ =>
        ({ s with data := (respackImport env s.data fs).data },
          [Event.showError "import-respack-failed"], (respackImport env s.data fs).fs)
      | Except.ok item =>
        ({ s with data := (respackImport env s.data fs).data, respackSlot := some item },
          [Event.showMessage "import-respack-success"], (respackImport env s.data fs).fs)
    else (s, [Event.returnFile tag], fs)

/-- Parent-page update while a transition is in flight (main.rs lines
197-200): pages[len - 2] is updated; at depth below 2 the index underflows
(panic, modelled as Option.none). -/
def parentUpdate (s : MainScene) : Option (List Event) :=
  if s.fader.transiting then
    match s.pages with
    | _ :: below :: _ => some [Event.updatePage below.label]
    | _ => Option.none
  else some []

/-- External inputs of one MainScene::update frame. -/
structure FrameIn where
  now : Nat
  np : NextPage
  volumeUpdated : Bool
  pollRes : Option (Except String LocalChart)
  saveOk : Bool
  file : Option (String × String)
  env : RespEnv
  fs : FsState

/-- Result of one MainScene::update frame; aborted is true when update
returned Err via the question mark operator on save_data. -/
structure FrameOut where
  scene : MainScene
  events : List Event
  fs : FsState
  aborted : Bool

/-- MainScene::update (main.rs lines 193-284), composed of the sections
above in source order: set the clock, update parent (when transiting) and
top pages, apply navigation, re-apply the amplifier when flagged, poll the
the import task (an aborting save skips the rest of the frame), drain the
inbound file router. -/
def MainScene.update (s0 : MainScene) (inp : FrameIn) : Option FrameOut :=
  let s := { s0 with t := inp.now }
  (parentUpdate s).bind fun evA =>
    (s.pages.head?.map Page.label).bind fun topLbl =>
      (navStep s inp.np).bind fun p =>
        let evD := if p.1.bgm ∧ inp.volumeUpdated then [Event.setAmplifier] else []
        match pollStep p.1 inp.pollRes inp.saveOk with
        | (s2, evE, true) =>
          some ⟨s2, evA ++ [Event.updatePage topLbl] ++ p.2 ++ evD ++ evE, inp.fs, true⟩
        | (s2, evE, false) =>
          match fileStep s2 inp.file inp.env inp.fs with
          | (s3, evF, fs3) =>
            some ⟨s3, evA ++ [Event.updatePage topLbl] ++ p.2 ++ evD ++ evE ++ evF, fs3, false⟩

/-- Take the pending imported respack artifact, clearing the slot
(MainScene::take_imported_respack, main.rs lines 134-136). -/
def MainScene.takeImportedRespack (s : MainScene) : Option ResPackItem × MainScene :=
  (s.respackSlot, { s with respackSlot := Option.none })

/-! Concrete scenes and environments used to evaluate the definitions. -/

def pageHome : Page := ⟨true, "home"⟩

def pageSub : Page := ⟨true, "sub"⟩

def pageNoBgm : Page := ⟨false, "rec"⟩

def faderIdle : Fader := ⟨Option.none⟩

def dataZ : Data := ⟨[], []⟩

def fsZ : FsState := ⟨[], []⟩

def envZ : RespEnv :=
  ⟨true, "respacks", true, ["u1"], true, true, true, true, ["info.yml"], true,
    some ⟨"Pack A"⟩, true⟩

def chartA : LocalChart := ⟨"chart-a"⟩

/-- Depth-1 scene whose sole page cannot play bgm. -/
def sceneOne : MainScene :=
  ⟨[pageNoBgm], faderIdle, 0, true, Option.none, 0, dataZ, Option.none⟩

/-- Depth-1 scene whose sole page can play bgm. -/
def sceneOneB : MainScene :=
  ⟨[pageHome], faderIdle, 0, true, Option.none, 0, dataZ, Option.none⟩

/-- Depth-2 scene, idle, overlay on top of home. -/
def sceneTwo : MainScene :=
  ⟨[pageSub, pageHome], faderIdle, 0, true, Option.none, 0, dataZ, Option.none⟩

/-- Depth-3 scene: top can play bgm, the page below it cannot, the bottom
(first ever) element can. -/
def sceneThree : MainScene :=
  ⟨[⟨true, "top"⟩, ⟨false, "mid"⟩, pageHome], faderIdle, 0, true, Option.none, 0,
    dataZ, Option.none⟩

/-- Depth-2 scene whose top cannot play bgm and whose lower page can. -/
def sceneFade : MainScene :=
  ⟨[pageNoBgm, pageHome], faderIdle, 3, true, Option.none, 0, dataZ, Option.none⟩

/-- Scene with an occupied import slot (task 0), next task id 1. -/
def sceneBusy : MainScene :=
  ⟨[pageHome], faderIdle, 0, true, some 0, 1, dataZ, Option.none⟩

/-- Scene in the middle of a Push transition started at time 0. -/
def sceneTrans : MainScene :=
  ⟨[pageSub, pageHome], ⟨some (false, 0)⟩, 0, true, Option.none, 0, dataZ, Option.none⟩

def touchBack : TouchInput := ⟨true, false⟩

def touchPlain : TouchInput := ⟨false, false⟩

/-! Helper lemmas about the identifier allocation loop and the pipeline. -/

/-- Identifier allocation never returns an identifier present in the root
directory listing. -/
theorem allocId_fresh (dirs : List String) :
    ∀ ids id, allocId dirs ids = some id → id ∉ dirs := by
  intro ids
  induction ids with
  | nil => intro id h; simp [allocId] at h
  | cons i rest ih =>
    intro id h
    by_cases hm : i ∈ dirs
    · rw [allocId, if_pos hm] at h
      exact ih id h
    · rw [allocId, if_neg hm] at h
      cases h
      exact hm

/-- Identifier allocation skips every colliding candidate and continues
with the remaining stream. -/
theorem allocId_skips (dirs : List String) (pre ids : List String)
    (h : ∀ j ∈ pre, j ∈ dirs) :
    allocId dirs (pre ++ ids) = allocId dirs ids := by
  induction pre with
  | nil => rfl
  | cons i rest ih =>
    have hi : i ∈ dirs := h i (by simp)
    rw [List.cons_append, allocId, if_pos hi]
    exact ih (fun j hj => h j (by simp [hj]))

/-- Shape of the pipeline's effect on the persistent respack list: either
untouched, or exactly the allocated identifier appended. -/
theorem respackImport_respacks (env : RespEnv) (d : Data) (fs : FsState) :
    (respackImport env d fs).data.respacks = d.respacks ∨
    ∃ id, allocId fs.dirs env.ids = some id ∧
      (respackImport env d fs).data.respacks = d.respacks ++ [id] := by
  obtain ⟨out, hout⟩ : ∃ out, respackImport env d fs = out := ⟨_, rfl⟩
  rw [hout]
  unfold respackImport at hout
  repeat' split at hout
  all_goals subst hout
  all_goals simp_all

/-- C2: for every execution of the resource-pack pipeline that fails at any
step before the final store save — root lookup, Dir handle, identifier
allocation, directory creation, directory open, archive open, unzip, or
manifest parse — the persistent store is unchanged; and an identifier is
appended to the respack list only when unzip, manifest presence and
manifest parse all succeeded. -/
theorem respack_failure_store_unchanged (env : RespEnv) (d : Data) (fs : FsState) :
    (∀ e, (respackImport env d fs).result = Except.error e → e ≠ RespErr.saveFail →
      (respackImport env d fs).data = d) ∧
    ((respackImport env d fs).data.respacks ≠ d.respacks →
      env.unzipOk = true ∧ env.ymlPresent = true ∧ env.parsedInfo.isSome = true) := by
  obtain ⟨out, hout⟩ : ∃ out, respackImport env d fs = out := ⟨_, rfl⟩
  rw [hout]
  unfold respackImport at hout
  repeat' split at hout
  all_goals subst hout
  all_goals simp_all

/-- C2 (witness): fault injection at the unzip step leaves the store as it
was. -/
theorem respack_failure_store_unchanged_witness :
    (respackImport { envZ with unzipOk := false } dataZ fsZ).result =
        Except.error RespErr.unzipFail ∧
    (respackImport { envZ with unzipOk := false } dataZ fsZ).data = dataZ :=
  ⟨rfl, (respack_failure_store_unchanged { envZ with unzipOk := false } dataZ fsZ).1
    RespErr.unzipFail rfl (by simp)⟩

/-- C9: every identifier the pipeline commits to the persistent respack
list is absent from the respacks root directory listing at allocation
time; the allocation loop skips every colliding candidate of the uuid
stream and retries on the remainder. -/
theorem respack_id_collision_free (env : RespEnv) (d : Data) (fs : FsState) :
    (∀ id, (respackImport env d fs).data.respacks = d.respacks ++ [id] → id ∉ fs.dirs) ∧
    (∀ dirs pre ids, (∀ j ∈ pre, j ∈ dirs) →
      allocId dirs (pre ++ ids) = allocId dirs ids) := by
  constructor
  · intro id hid
    rcases respackImport_respacks env d fs with h | ⟨id0, heq, hres⟩
    · rw [h] at hid
      have hl := congrArg List.length hid
      simp at hl
    · rw [hres] at hid
      have h2 : id0 = id := by
        have h3 := List.append_cancel_left hid
        simpa using h3
      subst h2
      exact allocId_fresh fs.dirs env.ids id0 heq
  · intro dirs pre ids h
    exact allocId_skips dirs pre ids h

/-- C9 (witness): with entries u1, u2 present, the first two candidates
collide and the committed identifier u3 is fresh. -/
theorem respack_id_collision_free_witness :
    (respackImport { envZ with ids := ["u1", "u2", "u3"] } dataZ
        ⟨["u1", "u2"], []⟩).data.respacks = dataZ.respacks ++ ["u3"] ∧
    "u3" ∉ (⟨["u1", "u2"], []⟩ : FsState).dirs :=
  ⟨rfl, (respack_id_collision_free { envZ with ids := ["u1", "u2", "u3"] } dataZ
    ⟨["u1", "u2"], []⟩).1 "u3" rfl⟩

/-- C10: when the pipeline fails at the unzip or manifest steps — after its
directory has been created — the allocated directory and every file already
extracted into it remain in the filesystem state, while the persistent
store is untouched: no cleanup is performed on failure. -/
theorem respack_failure_leaves_directory (env : RespEnv) (d : Data) (fs : FsState)
    (e : RespErr) (hres : (respackImport env d fs).result = Except.error e)
    (he : e = RespErr.unzipFail ∨ e = RespErr.missingYml ∨ e = RespErr.parseFail) :
    ∃ id, allocId fs.dirs env.ids = some id ∧
      id ∈ (respackImport env d fs).fs.dirs ∧
      (∀ f ∈ env.unzipWrites, (id, f) ∈ (respackImport env d fs).fs.files) ∧
      (respackImport env d fs).data = d := by
  obtain ⟨out, hout⟩ : ∃ out, respackImport env d fs = out := ⟨_, rfl⟩
  rw [hout] at hres ⊢
  unfold respackImport at hout
  repeat' split at hout
  all_goals subst hout
  all_goals try (replace hres := Except.error.inj hres; subst hres)
  all_goals simp_all

/-- C10 (witness): a failed unzip leaves the new directory u1 and its
partially extracted file on disk. -/
theorem respack_failure_leaves_directory_witness :
    (respackImport { envZ with unzipOk := false, unzipWrites := ["part"] } dataZ
        fsZ).result = Except.error RespErr.unzipFail ∧
    ∃ id, allocId fsZ.dirs ({ envZ with unzipOk := false, unzipWrites := ["part"] }
          : RespEnv).ids = some id ∧
      id ∈ (respackImport { envZ with unzipOk := false, unzipWrites := ["part"] } dataZ
          fsZ).fs.dirs ∧
      (∀ f ∈ ({ envZ with unzipOk := false, unzipWrites := ["part"] }
          : RespEnv).unzipWrites,
        (id, f) ∈ (respackImport { envZ with unzipOk := false, unzipWrites := ["part"] }
          dataZ fsZ).fs.files) ∧
      (respackImport { envZ with unzipOk := false, unzipWrites := ["part"] } dataZ
          fsZ).data = dataZ :=
  ⟨rfl, respack_failure_leaves_directory
    { envZ with unzipOk := false, unzipWrites := ["part"] } dataZ fsZ
    RespErr.unzipFail rfl (Or.inl rfl)⟩

/-- C1 (counterexample): while the slot holds task 0, a routed
("_import", file) pair replaces it with a newly created task (1): the
submission is neither rejected nor ignored, and the previously in-flight
task is dropped from the slot. -/
theorem import_submission_not_ignored :
    sceneBusy.importTask = some 0 ∧
    (fileStep sceneBusy (some ("_import", "f")) envZ fsZ).1.importTask = some 1 ∧
    (some 1 : Option Nat) ≠ some 0 := by
  refine ⟨rfl, rfl, by decide⟩

/-- C1 (amended): a ("_import", file) pair routed while the slot is
occupied is not rejected: the slot is overwritten with a freshly created
task and the previously in-flight task is dropped from the slot; the slot
stays single-occupancy throughout. -/
theorem import_submission_overwrites_slot (s : MainScene) (f : String)
    (env : RespEnv) (fs : FsState) (k : Nat) (_hk : s.importTask = some k)
    (hlt : k < s.nextTaskId) :
    (fileStep s (some ("_import", f)) env fs).1.importTask = some s.nextTaskId ∧
    (fileStep s (some ("_import", f)) env fs).1.importTask ≠ some k := by
  constructor
  · simp [fileStep]
  · simp [fileStep]
    omega

/-- C1 (witness): the overwrite observed on the concrete busy scene. -/
theorem import_submission_overwrites_slot_witness :
    sceneBusy.importTask = some 0 ∧ 0 < sceneBusy.nextTaskId ∧
    ((fileStep sceneBusy (some ("_import", "g")) envZ fsZ).1.importTask =
        some sceneBusy.nextTaskId ∧
      (fileStep sceneBusy (some ("_import", "g")) envZ fsZ).1.importTask ≠ some 0) :=
  ⟨rfl, by decide,
    import_submission_overwrites_slot sceneBusy "g" envZ fsZ 0 rfl (by decide)⟩

/-- C3 (counterexample): at depth 1, pop is not a no-op: with a top page
that cannot play bgm the two-from-the-end index underflows (a panic,
modelled none); with a top that can, pop starts a Pop transition, changing
the scene state. -/
theorem pop_depth_one_not_noop :
    sceneOne.pop = Option.none ∧
    sceneOneB.pop = some ({ sceneOneB with fader := ⟨some (true, 0)⟩ }, []) ∧
    ({ sceneOneB with fader := ⟨some (true, 0)⟩ } : MainScene) ≠ sceneOneB := by
  refine ⟨rfl, rfl, by decide⟩

/-- C3 (amended): pop at depth 1 is not a no-op: it panics immediately when
the sole page cannot play bgm, and otherwise starts a Pop transition on the
depth-1 stack whose next update frame panics. pop itself removes no page:
at depth at least 2 it leaves the stack unchanged and starts the Pop
transition (removal happens at transition completion); the back-affordance
path only invokes it at depth above 1. -/
theorem pop_behavior (s : MainScene) :
    (2 ≤ s.pages.length →
      ∃ evs, s.pop = some ({ s with fader := s.fader.back s.t }, evs)) ∧
    (∀ top, s.pages = [top] → top.canPlayBgm = false → s.pop = Option.none) ∧
    (∀ top, s.pages = [top] → top.canPlayBgm = true →
      s.pop = some ({ s with fader := s.fader.back s.t }, []) ∧
      ∀ inp, MainScene.update { s with fader := s.fader.back s.t } inp = Option.none) := by
  refine ⟨?_, ?_, ?_⟩
  · intro h2
    match hp : s.pages with
    | [] => rw [hp] at h2; simp at h2
    | [a] => rw [hp] at h2; simp at h2
    | a :: b :: rest =>
      cases hcb : a.canPlayBgm
      · exact ⟨if b.canPlayBgm ∧ s.bgm then [Event.fadeIn] else [],
          by simp [MainScene.pop, hp, hcb]⟩
      · exact ⟨[], by simp [MainScene.pop, hp, hcb]⟩
  · intro top hp hcb
    simp [MainScene.pop, hp, hcb]
  · intro top hp hcb
    constructor
    · simp [MainScene.pop, hp, hcb]
    · intro inp
      simp [MainScene.update, parentUpdate, Fader.transiting, Fader.back, hp]

/-- C3 (witness): the depth-1 panic case evaluated concretely. -/
theorem pop_behavior_witness :
    sceneOne.pages = [pageNoBgm] ∧ pageNoBgm.canPlayBgm = false ∧
    sceneOne.pop = Option.none :=
  ⟨rfl, rfl, (pop_behavior sceneOne).2.1 pageNoBgm rfl rfl⟩

/-- C4 (counterexample): a completed successful poll whose store save fails
leaves the task slot occupied on that frame, and update propagates the
error (third component true) — the clearing is not unconditional. -/
theorem slot_not_cleared_on_save_failure :
    (pollStep sceneBusy (some (Except.ok chartA)) false).1.importTask = some 0 ∧
    (pollStep sceneBusy (some (Except.ok chartA)) false).2.2 = true := ⟨rfl, rfl⟩

/-- C4 (amended): after a completed poll the slot is cleared when the
result is a failure, or a success whose store save succeeds; on success the
chart is appended to the store and the store flushed; on failure a
localized error carrying the underlying cause is shown; but when the save
of a successful import fails, update propagates the error and the slot
stays occupied. -/
theorem poll_clears_slot_unless_save_fails (s : MainScene)
    (r : Except String LocalChart) (saveOk : Bool) (k : Nat)
    (hk : s.importTask = some k) :
    (∀ e, r = Except.error e →
      (pollStep s (some r) saveOk).1.importTask = Option.none ∧
      (pollStep s (some r) saveOk).2.1 =
        [Event.showError ("import-failed: " ++ e)]) ∧
    (∀ c, r = Except.ok c → saveOk = true →
      (pollStep s (some r) saveOk).1.importTask = Option.none ∧
      (pollStep s (some r) saveOk).1.data.charts = s.data.charts ++ [c] ∧
      (pollStep s (some r) saveOk).2.1 =
        [Event.showMessage "import-success", Event.saveData, Event.reloadCharts]) ∧
    (∀ c, r = Except.ok c → saveOk = false →
      (pollStep s (some r) saveOk).1.importTask = some k ∧
      (pollStep s (some r) saveOk).2.2 = true) := by
  refine ⟨?_, ?_, ?_⟩
  · intro e hr
    subst hr
    simp [pollStep, hk]
  · intro c hr hs
    subst hr
    subst hs
    simp [pollStep, hk]
  · intro c hr hs
    subst hr
    subst hs
    simp [pollStep, hk]

/-- C4 (witness): a failed import clears the slot and shows the cause. -/
theorem poll_clears_slot_unless_save_fails_witness :
    sceneBusy.importTask = some 0 ∧
    ((pollStep sceneBusy (some (Except.error "boom")) true).1.importTask =
        Option.none ∧
      (pollStep sceneBusy (some (Except.error "boom")) true).2.1 =
        [Event.showError ("import-failed: " ++ "boom")]) :=
  ⟨rfl, (poll_clears_slot_unless_save_fails sceneBusy (Except.error "boom") true 0
    rfl).1 "boom" rfl⟩

/-- C5 (counterexample): with a transition in flight, touch leaves the
scene untouched and invokes no page handler, but returns false — the input
is reported as NOT handled rather than consumed. -/
theorem touch_during_transition_returns_false :
    sceneTrans.touch touchBack 5 = some (sceneTrans, false, []) := rfl

/-- C5 (amended): while a transition is in flight no page's touch handler
runs and the scene is unchanged, but the call reports false (unhandled) to
the caller instead of consuming the input. -/
theorem touch_during_transition (s : MainScene) (inp : TouchInput) (now : Nat)
    (h : s.fader.transiting = true) :
    s.touch inp now = some (s, false, []) := by
  simp [MainScene.touch, h]

/-- C5 (witness): the transiting scene evaluated concretely. -/
theorem touch_during_transition_witness :
    sceneTrans.fader.transiting = true ∧
    sceneTrans.touch touchPlain 9 = some (sceneTrans, false, []) :=
  ⟨rfl, touch_during_transition sceneTrans touchPlain 9 rfl⟩

/-- C7 (counterexample): a depth-3 stack whose element two below the top is
the stack's first element and whose soon-to-be-active page's music policy
(cannot play) differs from the top's (can play): pop applies no fade. -/
theorem pop_no_fade_when_policies_differ :
    sceneThree.pop = some ({ sceneThree with fader := ⟨some (true, 0)⟩ }, []) := rfl

/-- C7 (amended): on pop at depth at least 2, the fade-in is applied
exactly when the current top cannot play bgm and the page directly below
the top can; it is emitted by pop itself, synchronously, with the Pop
transition merely started and not completed. The position of lower stack
elements is irrelevant, and no fade happens when only the top can play. -/
theorem pop_fade_condition (s : MainScene) (top below : Page) (rest : List Page)
    (hp : s.pages = top :: below :: rest) (hb : s.bgm = true) :
    s.pop = some ({ s with fader := s.fader.back s.t },
      if top.canPlayBgm = false ∧ below.canPlayBgm = true then [Event.fadeIn]
      else []) := by
  cases hcb : top.canPlayBgm <;> cases hcb2 : below.canPlayBgm <;>
    simp [MainScene.pop, hp, hcb, hcb2, hb]

/-- C7 (witness): the fade fires on a depth-2 stack with a silent top. -/
theorem pop_fade_condition_witness :
    sceneFade.pages = [pageNoBgm, pageHome] ∧ sceneFade.bgm = true ∧
    sceneFade.pop = some ({ sceneFade with fader := ⟨some (true, 3)⟩ },
      if pageNoBgm.canPlayBgm = false ∧ pageHome.canPlayBgm = true then [Event.fadeIn]
      else []) :=
  ⟨rfl, rfl, pop_fade_condition sceneFade pageNoBgm pageHome [] rfl rfl⟩

/-- Events a navigation step started by NextPage::Pop (or finishing a
transition) can emit: nothing, a bgm fade-in, or the completion hooks. -/
theorem navStep_pop_events (s : MainScene) (s2 : MainScene) (evs : List Event)
    (h : navStep s NextPage.pop = some (s2, evs)) :
    evs = [] ∨ evs = [Event.fadeIn] ∨
      ∃ a b, evs = [Event.exitPage a, Event.enter b] := by
  simp only [navStep, MainScene.pop] at h
  repeat' split at h
  all_goals simp_all
  obtain ⟨h1, h2⟩ := h
  subst h2
  exact Or.inr (Or.inr ⟨_, _, rfl⟩)

/-- C8: lifecycle hooks — pushing an overlay runs the new page's enter hook
immediately at push time, with the Push transition merely started; a
completed Push transition runs no additional hooks; a completed Pop
transition runs the removed page's exit hook exactly once, then the new
top's enter hook, and resets the fader so the edge cannot fire again. -/
theorem lifecycle_hooks (s : MainScene) (st : Nat) :
    (∀ sub : Page, s.fader.transiting = false →
      navStep s (NextPage.overlay sub) =
        some ({ s with pages := sub :: s.pages, fader := s.fader.sub s.t },
          (if s.pages.length = 1 ∧ s.bgm then [Event.lowPassOn] else [])
            ++ [Event.enter sub.label]
            ++ (if sub.canPlayBgm = false ∧ s.bgm then [Event.fadeOut] else []))) ∧
    (∀ np, s.fader.trans = some (false, st) → st + TRANSIT_TIME ≤ s.t →
      navStep s np = some ({ s with fader := ⟨Option.none⟩ }, [])) ∧
    (∀ np top newTop rest, s.fader.trans = some (true, st) →
      st + TRANSIT_TIME ≤ s.t → s.pages = top :: newTop :: rest →
      navStep s np =
        some ({ s with pages := newTop :: rest, fader := ⟨Option.none⟩ },
          [Event.exitPage top.label, Event.enter newTop.label])) := by
  refine ⟨?_, ?_, ?_⟩
  · intro sub h
    simp [navStep, h]
  · intro np hf hle
    simp [navStep, Fader.transiting, Fader.done, hf, hle]
  · intro np top newTop rest hf hle hp
    simp [navStep, Fader.transiting, Fader.done, hf, hle, hp]

/-- C8 (witness): a push on the concrete depth-1 scene enters the overlay
immediately. -/
theorem lifecycle_hooks_witness :
    sceneOneB.fader.transiting = false ∧
    navStep sceneOneB (NextPage.overlay pageSub) =
      some ({ sceneOneB with
                pages := pageSub :: sceneOneB.pages
                fader := sceneOneB.fader.sub sceneOneB.t },
        (if sceneOneB.pages.length = 1 ∧ sceneOneB.bgm then [Event.lowPassOn] else [])
          ++ [Event.enter pageSub.label]
          ++ (if pageSub.canPlayBgm = false ∧ sceneOneB.bgm then [Event.fadeOut]
              else [])) :=
  ⟨rfl, (lifecycle_hooks sceneOneB 0).1 pageSub rfl⟩

/-- C6 (counterexample): popping the single overlay at depth 2 via the
page-reported Pop path emits no low-pass disengage — the filter stays
engaged on that pop path. -/
theorem lowpass_not_disengaged_on_reported_pop :
    navStep sceneTwo NextPage.pop =
      some ({ sceneTwo with fader := ⟨some (true, 0)⟩ }, []) := rfl

/-- C6 (amended): with background music present, the low-pass filter is
engaged exactly when a push makes the stack depth become 2, and it is
disengaged only by the back-affordance pop path at depth 2; the
page-reported Pop path never emits the disengage. -/
theorem lowpass_engage_disengage (s : MainScene) (hb : s.bgm = true) :
    (∀ sub s2 evs, s.fader.transiting = false →
      navStep s (NextPage.overlay sub) = some (s2, evs) →
      (Event.lowPassOn ∈ evs ↔ s.pages.length = 1)) ∧
    (∀ inp now s2 ok evs, s.fader.transiting = false →
      s.importTask = Option.none → inp.hitsBack = true → s.pages.length = 2 →
      s.touch inp now = some (s2, ok, evs) → Event.lowPassOff ∈ evs) ∧
    (∀ s2 evs, navStep s NextPage.pop = some (s2, evs) →
      Event.lowPassOff ∉ evs) := by
  refine ⟨?_, ?_, ?_⟩
  · intro sub s2 evs h hnav
    simp only [navStep, h] at hnav
    simp at hnav
    obtain ⟨h1, h2⟩ := hnav
    subst h2
    by_cases hl : s.pages.length = 1 <;> cases hcb : sub.canPlayBgm <;>
      simp [hl, hcb, hb]
  · intro inp now s2 ok evs h himp hback hlen htouch
    match hp : s.pages with
    | [] => rw [hp] at hlen; simp at hlen
    | [a] => rw [hp] at hlen; simp at hlen
    | a :: b :: c :: rest => rw [hp] at hlen; simp at hlen
    | [a, b] =>
      cases hcb : a.canPlayBgm <;>
        · simp [MainScene.touch, MainScene.pop, h, himp, hback, hp, hcb, hb]
            at htouch
          obtain ⟨h1, h2, h3⟩ := htouch
          subst h3
          simp
  · intro s2 evs hnav
    rcases navStep_pop_events s s2 evs hnav with h | h | ⟨a, b, h⟩ <;> subst h <;>
      simp

/-- C6 (witness): a push from depth 1 engages the filter. -/
theorem lowpass_engage_disengage_witness :
    sceneOne.bgm = true ∧
    (Event.lowPassOn ∈ [Event.lowPassOn, Event.enter "sub"] ↔
      sceneOne.pages.length = 1) :=
  ⟨rfl, (lowpass_engage_disengage sceneOne rfl).1 pageSub
    { sceneOne with pages := [pageSub, pageNoBgm], fader := ⟨some (false, 0)⟩ }
    [Event.lowPassOn, Event.enter "sub"] rfl (by simp [navStep, sceneOne, pageSub,
      pageNoBgm, faderIdle, dataZ, Fader.transiting, Fader.sub, Event.enter])⟩

end Phira
